import Mathlib

/-!
Shallow embedding of the account-gated search backend
(`functions/api/search.js` and `functions/api/payment/webhook.js`).

The handlers are sequential request/response glue over a single
key-value store mapping email addresses to serialized Account records.
External collaborators (NIH search API, Brevo notifier, Stripe) are
modelled as explicit outcome parameters: the handler's own control flow
is translated from the source, and the collaborator's reply is an input.
JavaScript timestamps (`new Date()`) are modelled by an explicit `now`
parameter; only calendar year and month are ever inspected by the code.
SHA-256 password hashing (`crypto.subtle.digest`) is an external
primitive, modelled as an explicit hash-function parameter.
-/

namespace EmailIntegration

/-- Calendar instant: the code only ever reads `getFullYear()` and
`getMonth()` of a timestamp, so a date is a year/month pair. -/
structure Date where
  year : Nat
  month : Nat
deriving DecidableEq, Repr

/-- ISO rendering stand-in, used only when serializing fields. -/
def Date.iso (d : Date) : String :=
  toString d.year ++ "-" ++ toString d.month

/-- The per-user record stored in `USERS_KV` (`userData` in the source).
Fields written by `handleRegister` are always present; the Stripe
webhook fields exist only once set, hence `Option`. -/
structure Account where
  email : String
  password_hash : String
  subscription_status : String
  monthly_searches : Nat
  created_at : Date
  last_reset : Date
  stripe_customer_id : Option String
  subscription_id : Option String
  upgraded_at : Option Date
  last_payment : Option Date
deriving DecidableEq, Repr

/-- The credential store: `USERS_KV`, keyed by email. -/
def Store := String → Option Account

/-- Translates `USERS_KV.put(email, JSON.stringify(userData))`. -/
def Store.update (s : Store) (k : String) (v : Account) : Store :=
  fun k' => if k' = k then some v else s k'

/-- The serialized fields of an Account in insertion order, as
`JSON.stringify(userData)` would emit them (values rendered as strings;
only the key set matters for the invariants below). -/
def serializeFields (a : Account) : List (String × String) :=
  [("email", a.email),
   ("password_hash", a.password_hash),
   ("subscription_status", a.subscription_status),
   ("monthly_searches", toString a.monthly_searches),
   ("created_at", a.created_at.iso),
   ("last_reset", a.last_reset.iso)]
  ++ (match a.stripe_customer_id with
      | some v => [("stripe_customer_id", v)]
      | none => [])
  ++ (match a.subscription_id with
      | some v => [("subscription_id", v)]
      | none => [])
  ++ (match a.upgraded_at with
      | some v => [("upgraded_at", v.iso)]
      | none => [])
  ++ (match a.last_payment with
      | some v => [("last_payment", v.iso)]
      | none => [])

/-- Translates `const { password_hash, ...safeUserData } = userData`:
every field
except `password_hash`. -/
def safeUserFields (a : Account) : List (String × String) :=
  (serializeFields a).filter (fun kv => kv.1 ≠ "password_hash")

/-- A JSON response from the action endpoint: HTTP status plus the body
fields the handlers emit. Absent body fields are `none`. -/
structure Response where
  status : Nat
  success : Bool
  error : Option String
  message : Option String
  user : Option (List (String × String))
  results_count : Option Nat
  warning : Option String
deriving DecidableEq, Repr

/-- Builds the body `{ error: msg }` with the given HTTP status. -/
def jsonError (status : Nat) (msg : String) : Response :=
  { status := status, success := false, error := some msg,
    message := none, user := none, results_count := none, warning := none }

/-- The `advanced_text_search` clause of the NIH request schema. -/
structure AdvancedTextSearch where
  operator : String
  search_field : String
  search_text : String
deriving DecidableEq, Repr

/-- Caller-supplied search criteria: the free-text field, the compound
clause, and all remaining fields (carried verbatim by the spread
`{ ...criteria }`). `text_search = some ""` models a present-but-empty
(hence falsy) field. -/
structure Criteria where
  text_search : Option String
  advanced_text_search : Option AdvancedTextSearch
  rest : List (String × String)
deriving DecidableEq, Repr

/-- The rewrite at the top of the gated search path: a truthy
`text_search` is replaced by the compound clause and deleted; an absent
or empty (falsy) one leaves the criteria untouched. -/
def normalizeCriteria (c : Criteria) : Criteria :=
  match c.text_search with
  | none => c
  | some t =>
    if t = "" then c
    else
      { c with
        advanced_text_search :=
          some { operator := "and",
                 search_field := "projecttitle,terms,abstracttext",
                 search_text := t },
        text_search := none }

/-- The request body sent to the NIH collaborator (`nihPayload`). -/
structure NihPayload where
  criteria : Criteria
  sort_field : String
  sort_order : String
  offset : Nat
  limit : Nat
deriving DecidableEq, Repr

/-- One result object from the NIH collaborator; the gated handler never
inspects its fields (only the notifier formats them), so it is a single
payload string. -/
structure Project where
  payload : String
deriving DecidableEq, Repr

/-- Outcome of the `fetch` to the NIH API: `failure msg` covers both a
transport error and a non-2xx response (the source throws
`NIH API error: <status>` on non-ok, and the catch block sees either);
`success results` is a parsed 2xx body, whose `results` key may be
missing (`nihData.results || []`). -/
inductive NihResult where
  | failure (msg : String)
  | success (results : Option (List Project))
deriving DecidableEq, Repr

/-- Externally visible effects of one search request, in program order. -/
inductive Event where
  | kvPut (key : String) (value : Account)
  | nihCall (payload : NihPayload)
  | notify (dest : String) (results : List Project) (criteria : Criteria)
deriving DecidableEq, Repr

/-- Result of `handleSearch`: the response, the store afterwards, and
the ordered effect trace. -/
structure SearchOutcome where
  response : Response
  store : Store
  events : List Event

/-- The handler `handleSearch(context, email, criteria, cors)` translated from the
source. `criteria = none` models a missing (falsy) criteria argument;
a missing email is the empty string. `nih` is the collaborator's reply
and `emailSent` the boolean returned by `sendSearchResultsEmail`. -/
def handleSearch (store : Store) (email : String) (criteria : Option Criteria)
    (nih : NihResult) (emailSent : Bool) : SearchOutcome :=
  if email = "" then
    ⟨jsonError 400 "Email and search criteria required", store, []⟩
  else
    match criteria with
    | none => ⟨jsonError 400 "Email and search criteria required", store, []⟩
    | some c =>
      match store email with
      | none => ⟨jsonError 404 "User not found", store, []⟩
      | some userData =>
        let isFreeTier : Bool := userData.subscription_status ≠ "active"
        let maxSearches : Nat := if isFreeTier then 5 else 15
        let maxAbstracts : Nat := if isFreeTier then 3 else 10
        if userData.monthly_searches ≥ maxSearches then
          ⟨jsonError 429
            ("Search limit reached. "
              ++ (if isFreeTier then "Free users get 5 searches/month"
                  else "Pro users get 15 searches/month")
              ++ ". Upgrade for more!"),
           store, []⟩
        else
          let searchCriteria := normalizeCriteria c
          let nihPayload : NihPayload :=
            { criteria := searchCriteria, sort_field := "project_start_date",
              sort_order := "desc", offset := 0, limit := maxAbstracts }
          match nih with
          | .failure msg =>
            ⟨jsonError 500 ("Search failed: " ++ msg), store,
             [Event.nihCall nihPayload]⟩
          | .success results =>
            let projects := results.getD []
            let updated :=
              { userData with monthly_searches := userData.monthly_searches + 1 }
            let store' := store.update email updated
            let events :=
              [Event.nihCall nihPayload, Event.kvPut email updated,
               Event.notify email projects searchCriteria]
            if emailSent then
              ⟨{ status := 200, success := true, error := none,
                 message := some ("Search completed! " ++ toString projects.length
                   ++ " results sent to your email"),
                 user := some (safeUserFields updated),
                 results_count := some projects.length, warning := none },
               store', events⟩
            else
              ⟨{ status := 200, success := true, error := none,
                 message := some ("Search completed! " ++ toString projects.length
                   ++ " results found (email delivery failed - please check your email configuration)"),
                 user := some (safeUserFields updated),
                 results_count := some projects.length,
                 warning := some "Email delivery failed" },
               store', events⟩

/-- The handler `handleRegister(context, email, password, cors)` translated from the
source. `hash` stands in for the SHA-256 digest (`hashPassword`); a
missing email or password is the empty string (falsy). -/
def handleRegister (hash : String → String) (store : Store) (now : Date)
    (email password : String) : Response × Store :=
  if email = "" ∨ password = "" then
    (jsonError 400 "Email and password required", store)
  else
    match store email with
    | some _ => (jsonError 400 "User already exists", store)
    | none =>
      let userData : Account :=
        { email := email, password_hash := hash password,
          subscription_status := "free", monthly_searches := 0,
          created_at := now, last_reset := now,
          stripe_customer_id := none, subscription_id := none,
          upgraded_at := none, last_payment := none }
      ({ status := 200, success := true, error := none,
         message := some "Registration successful",
         user := some (safeUserFields userData),
         results_count := none, warning := none },
       store.update email userData)

/-- The handler `handleLogin(context, email, password, cors)` translated from the
source: verify the password, then reset the monthly counter if the
calendar month or year of `now` differs from `last_reset` (persisting
only when it rolled over), and return the account sans hash. -/
def handleLogin (hash : String → String) (store : Store) (now : Date)
    (email password : String) : Response × Store :=
  if email = "" ∨ password = "" then
    (jsonError 400 "Email and password required", store)
  else
    match store email with
    | none => (jsonError 401 "Invalid credentials", store)
    | some userData =>
      if hash password ≠ userData.password_hash then
        (jsonError 401 "Invalid credentials", store)
      else
        let lastReset := userData.last_reset
        if now.month ≠ lastReset.month ∨ now.year ≠ lastReset.year then
          let userData' :=
            { userData with monthly_searches := 0, last_reset := now }
          ({ status := 200, success := true, error := none,
             message := some "Login successful",
             user := some (safeUserFields userData'),
             results_count := none, warning := none },
           store.update email userData')
        else
          ({ status := 200, success := true, error := none,
             message := some "Login successful",
             user := some (safeUserFields userData),
             results_count := none, warning := none },
           store)

/-- The handler `handleReset(context, email, cors)` translated from the source:
zero the counter, advance `last_reset`, persist. -/
def handleReset (store : Store) (now : Date) (email : String) :
    Response × Store :=
  match store email with
  | none => (jsonError 404 "User not found", store)
  | some userData =>
    let userData' := { userData with monthly_searches := 0, last_reset := now }
    ({ status := 200, success := true, error := none,
       message := some "Search counter reset successfully",
       user := some (safeUserFields userData'),
       results_count := none, warning := none },
     store.update email userData')

/-- Spec §4.1 Quota Policy:
`needs_reset(now, last_reset_at)` iff the calendar year or month differ.
This is the condition `handleLogin` tests (in the other order). -/
def needs_reset (now last : Date) : Bool :=
  now.year ≠ last.year ∨ now.month ≠ last.month

/-- JavaScript truthiness of an optional string: `undefined` and `""`
are falsy. -/
def truthyStr : Option String → Option String
  | none => none
  | some s => if s = "" then none else some s

/-- Evaluates `a || b` on optional strings as JavaScript does. -/
def jsOr (a b : Option String) : Option String :=
  match truthyStr a with
  | some s => some s
  | none => truthyStr b

/-- The `data.object` of a Stripe webhook event, duck-typed: every
field any of the three handlers may read. -/
structure StripeObject where
  customer_email : Option String
  metadata_user_email : Option String
  customer : Option String
  subscription : Option String
  id : Option String
deriving DecidableEq, Repr

/-- A parsed webhook body: `type` plus `data.object`. -/
structure WebhookPayload where
  type : String
  object : StripeObject
deriving DecidableEq, Repr

/-- The handler `handleCheckoutCompleted(context, session)` translated from the
source: resolve the email (`session.customer_email ||
session.metadata?.user_email`), drop the event if falsy or the account
is absent, else set the subscription active and record the Stripe ids. -/
def handleCheckoutCompleted (store : Store) (now : Date)
    (session : StripeObject) : Store :=
  match jsOr session.customer_email session.metadata_user_email with
  | none => store
  | some customerEmail =>
    match store customerEmail with
    | none => store
    | some userData =>
      let userData' :=
        { userData with
          subscription_status := "active",
          stripe_customer_id := session.customer,
          subscription_id := session.subscription,
          upgraded_at := some now }
      store.update customerEmail userData'

/-- The handler `handlePaymentSucceeded(context, invoice)` translated from the
source: mark the subscription active and stamp `last_payment`. -/
def handlePaymentSucceeded (store : Store) (now : Date)
    (invoice : StripeObject) : Store :=
  match truthyStr invoice.customer_email with
  | none => store
  | some customerEmail =>
    match store customerEmail with
    | none => store
    | some userData =>
      let userData' :=
        { userData with
          subscription_status := "active",
          last_payment := some now }
      store.update customerEmail userData'

/-- A webhook response: status plus the two body shapes the source
emits (`{received: true}` or `{error: ...}`), or a bare text body. -/
structure WebhookResponse where
  status : Nat
  received : Bool
  error : Option String
deriving DecidableEq, Repr

/-- The entry point `onRequest` of `payment/webhook.js` translated from the source.
`sig` is the `stripe-signature` header, read but never used by the
code (bound here the same way). `body = none` models a request body
that `JSON.parse` rejects, which the catch block turns into a 400.
`customer.subscription.deleted` and unknown event types leave the
store untouched. -/
def webhookOnRequest (store : Store) (now : Date) (method : String)
    (sig : Option String) (body : Option WebhookPayload) :
    WebhookResponse × Store :=
  let _ := sig
  if method = "OPTIONS" then
    ({ status := 200, received := false, error := none }, store)
  else if method ≠ "POST" then
    ({ status := 405, received := false, error := none }, store)
  else
    match body with
    | none =>
      ({ status := 400, received := false, error := some "Webhook failed" }, store)
    | some payload =>
      let store' :=
        if payload.type = "checkout.session.completed" then
          handleCheckoutCompleted store now payload.object
        else if payload.type = "invoice.payment_succeeded" then
          handlePaymentSucceeded store now payload.object
        else
          store
      ({ status := 200, received := true, error := none }, store')

/-! ### Concrete fixtures used by witnesses and counterexamples -/

/-- A concrete stand-in for the SHA-256 digest. -/
def demoHash (s : String) : String := "sha256:" ++ s

/-- A FREE-tier account with a given counter and last-reset date. -/
def mkAccount (count : Nat) (status : String) (lr : Date) : Account :=
  { email := "a@x.com", password_hash := demoHash "pw",
    subscription_status := status, monthly_searches := count,
    created_at := ⟨2025, 3⟩, last_reset := lr,
    stripe_customer_id := none, subscription_id := none,
    upgraded_at := none, last_payment := none }

/-- A store holding exactly the account `a` under its own email. -/
def mkStore (a : Account) : Store :=
  fun k => if k = a.email then some a else none

/-- Criteria with just a free-text field. -/
def demoCriteria : Criteria :=
  { text_search := some "cancer", advanced_text_search := none,
    rest := [("fiscal_years", "2024")] }

/-! ### Shared lemmas -/

/-- The rest-destructured user object contains no `password_hash` key. -/
theorem safeUserFields_no_hash (a : Account) :
    "password_hash" ∉ (safeUserFields a).map Prod.fst := by
  intro h
  rcases List.mem_map.mp h with ⟨kv, hkv, hfst⟩
  have hp := (List.mem_filter.mp hkv).2
  simp only [ne_eq, decide_not, Bool.not_eq_eq_eq_not, Bool.not_true,
    decide_eq_false_iff_not] at hp
  exact hp hfst

/-! ### Claims -/

/-- C2: the gated Search fails with QuotaExceeded (HTTP 429) exactly when
`monthly_search_count ≥ max_searches_per_month(tier)` — strict less-than
is the tie-break, with limits 5 for FREE (`subscription_status ≠
"active"`) and 15 for PRO — and a rejected search leaves the stored
account unchanged. -/
theorem search_quota_check (store : Store) (email : String) (acct : Account)
    (c : Criteria) (nih : NihResult) (es : Bool)
    (hemail : email ≠ "") (hacct : store email = some acct) :
    ((handleSearch store email (some c) nih es).response.status = 429 ↔
      acct.monthly_searches ≥
        (if acct.subscription_status ≠ "active" then 5 else 15))
    ∧ (acct.monthly_searches ≥
        (if acct.subscription_status ≠ "active" then 5 else 15) →
      (handleSearch store email (some c) nih es).store = store) := by
  by_cases hact : acct.subscription_status = "active" <;>
    by_cases hq : acct.monthly_searches ≥
        (if acct.subscription_status ≠ "active" then 5 else 15) <;>
      cases nih <;> cases es <;>
        simp_all [handleSearch, jsonError] <;>
          simp [Nat.not_le.mpr hq]

/-- C2 witness: a FREE account at count 5 is rejected with 429 and the
store is untouched. -/
theorem search_quota_check_witness :
    ((handleSearch (mkStore (mkAccount 5 "free" ⟨2025, 4⟩)) "a@x.com"
        (some demoCriteria) (.success (some [])) true).response.status = 429 ↔
      (mkAccount 5 "free" ⟨2025, 4⟩).monthly_searches ≥
        (if (mkAccount 5 "free" ⟨2025, 4⟩).subscription_status ≠ "active"
         then 5 else 15))
    ∧ ((mkAccount 5 "free" ⟨2025, 4⟩).monthly_searches ≥
        (if (mkAccount 5 "free" ⟨2025, 4⟩).subscription_status ≠ "active"
         then 5 else 15) →
      (handleSearch (mkStore (mkAccount 5 "free" ⟨2025, 4⟩)) "a@x.com"
        (some demoCriteria) (.success (some [])) true).store =
        mkStore (mkAccount 5 "free" ⟨2025, 4⟩)) :=
  search_quota_check (mkStore (mkAccount 5 "free" ⟨2025, 4⟩)) "a@x.com"
    (mkAccount 5 "free" ⟨2025, 4⟩) demoCriteria (.success (some [])) true
    (by decide) (by decide)

/-- C7: registering an email that already has an account fails with
AlreadyExists (HTTP 400, "User already exists") and performs no store
write, so the first account's data is unchanged. -/
theorem register_duplicate_rejected (hash : String → String) (store : Store)
    (now : Date) (email password : String) (acct : Account)
    (he : email ≠ "") (hp : password ≠ "") (hacct : store email = some acct) :
    (handleRegister hash store now email password).1 =
      jsonError 400 "User already exists"
    ∧ (handleRegister hash store now email password).2 = store := by
  unfold handleRegister
  simp [he, hp, hacct]

/-- C7 witness: re-registering the demo account's email is rejected and
the store is unchanged. -/
theorem register_duplicate_rejected_witness :
    (handleRegister demoHash (mkStore (mkAccount 0 "free" ⟨2025, 4⟩))
        ⟨2025, 5⟩ "a@x.com" "pw2").1 = jsonError 400 "User already exists"
    ∧ (handleRegister demoHash (mkStore (mkAccount 0 "free" ⟨2025, 4⟩))
        ⟨2025, 5⟩ "a@x.com" "pw2").2 = mkStore (mkAccount 0 "free" ⟨2025, 4⟩) :=
  register_duplicate_rejected demoHash (mkStore (mkAccount 0 "free" ⟨2025, 4⟩))
    ⟨2025, 5⟩ "a@x.com" "pw2" (mkAccount 0 "free" ⟨2025, 4⟩)
    (by decide) (by decide) (by decide)

/-- C8: a login with a wrong password (digest mismatch) fails with
InvalidCredentials (HTTP 401) and performs no store write, so
`monthly_search_count` and `last_reset_at` are unchanged. -/
theorem login_wrong_password_no_mutation (hash : String → String)
    (store : Store) (now : Date) (email password : String) (acct : Account)
    (he : email ≠ "") (hp : password ≠ "") (hacct : store email = some acct)
    (hw : hash password ≠ acct.password_hash) :
    (handleLogin hash store now email password).1 =
      jsonError 401 "Invalid credentials"
    ∧ (handleLogin hash store now email password).2 = store := by
  unfold handleLogin
  simp [he, hp, hacct, hw]

/-- C8 witness: a wrong password against the demo account yields 401 and
the store is unchanged. -/
theorem login_wrong_password_no_mutation_witness :
    (handleLogin demoHash (mkStore (mkAccount 2 "free" ⟨2025, 4⟩))
        ⟨2025, 5⟩ "a@x.com" "wrong").1 = jsonError 401 "Invalid credentials"
    ∧ (handleLogin demoHash (mkStore (mkAccount 2 "free" ⟨2025, 4⟩))
        ⟨2025, 5⟩ "a@x.com" "wrong").2 = mkStore (mkAccount 2 "free" ⟨2025, 4⟩) :=
  login_wrong_password_no_mutation demoHash
    (mkStore (mkAccount 2 "free" ⟨2025, 4⟩)) ⟨2025, 5⟩ "a@x.com" "wrong"
    (mkAccount 2 "free" ⟨2025, 4⟩) (by decide) (by decide) (by decide) (by decide)

/-- C1 counterexample: a FREE account with `last_reset` in April 2025 and
counter 5, searched when "now" is May 2025 (`needs_reset` holds). The
claim predicts the counter is reset to 0 before the quota check and the
search then succeeds with counter 1; the code instead rejects with 429
and leaves the stored account (counter 5, April `last_reset`) untouched:
`handleSearch` contains no reset logic at all. -/
theorem search_stale_month_not_reset_cex :
    needs_reset ⟨2025, 5⟩ (mkAccount 5 "free" ⟨2025, 4⟩).last_reset = true
    ∧ (handleSearch (mkStore (mkAccount 5 "free" ⟨2025, 4⟩)) "a@x.com"
        (some demoCriteria) (.success (some [])) true).response.status = 429
    ∧ (handleSearch (mkStore (mkAccount 5 "free" ⟨2025, 4⟩)) "a@x.com"
        (some demoCriteria) (.success (some [])) true).store "a@x.com"
        = some (mkAccount 5 "free" ⟨2025, 4⟩) := by
  exact ⟨rfl, rfl, rfl⟩

/-- C1 amended: the lazy monthly reset is applied on login, not by the
gated Search. (a) For any account — in particular one whose
`last_reset` is in a different calendar month/year than now — a search
within quota of the stored (un-reset) counter increments that counter
by 1 and leaves `last_reset` unchanged (`handleSearch` never reads the
clock). (b) A login in a different calendar month/year resets the
counter to 0 and advances `last_reset` to now. -/
theorem monthly_reset_on_login_not_search :
    (∀ (store : Store) (email : String) (acct : Account) (c : Criteria)
        (res : Option (List Project)) (es : Bool) (now : Date),
      email ≠ "" → store email = some acct →
      needs_reset now acct.last_reset = true →
      acct.monthly_searches <
        (if acct.subscription_status ≠ "active" then 5 else 15) →
      (handleSearch store email (some c) (.success res) es).store email =
        some { acct with monthly_searches := acct.monthly_searches + 1 })
    ∧ (∀ (hash : String → String) (store : Store) (now : Date)
        (email password : String) (acct : Account),
      email ≠ "" → password ≠ "" → store email = some acct →
      hash password = acct.password_hash →
      needs_reset now acct.last_reset = true →
      (handleLogin hash store now email password).2 email =
        some { acct with monthly_searches := 0, last_reset := now }) := by
  constructor
  · intro store email acct c res es now hemail hacct _ hq
    by_cases hact : acct.subscription_status = "active" <;> cases es <;>
      simp_all [handleSearch, Store.update] <;>
        simp [Nat.not_le.mpr hq, Store.update]
  · intro hash store now email password acct he hp hacct hpw hr
    have h' : now.year ≠ acct.last_reset.year ∨
        now.month ≠ acct.last_reset.month := by
      simpa [needs_reset] using hr
    have hcond : now.month ≠ acct.last_reset.month ∨
        now.year ≠ acct.last_reset.year := h'.symm
    simp [handleLogin, he, hp, hacct, hpw, hcond, Store.update]

/-- C1 amended witness: (a) a May search against an April-reset FREE
account with counter 1 stores counter 2 with `last_reset` still April;
(b) a May login against that account stores counter 0 with `last_reset`
advanced to May. -/
theorem monthly_reset_on_login_not_search_witness :
    ((handleSearch (mkStore (mkAccount 1 "free" ⟨2025, 4⟩)) "a@x.com"
        (some demoCriteria) (.success (some [])) true).store "a@x.com" =
      some { mkAccount 1 "free" ⟨2025, 4⟩ with
             monthly_searches := (mkAccount 1 "free" ⟨2025, 4⟩).monthly_searches + 1 })
    ∧ ((handleLogin demoHash (mkStore (mkAccount 1 "free" ⟨2025, 4⟩))
        ⟨2025, 5⟩ "a@x.com" "pw").2 "a@x.com" =
      some { mkAccount 1 "free" ⟨2025, 4⟩ with
             monthly_searches := 0, last_reset := ⟨2025, 5⟩ }) :=
  ⟨monthly_reset_on_login_not_search.1
      (mkStore (mkAccount 1 "free" ⟨2025, 4⟩)) "a@x.com"
      (mkAccount 1 "free" ⟨2025, 4⟩) demoCriteria (some []) true ⟨2025, 5⟩
      (by decide) (by decide) (by decide) (by decide),
   monthly_reset_on_login_not_search.2 demoHash
      (mkStore (mkAccount 1 "free" ⟨2025, 4⟩)) ⟨2025, 5⟩ "a@x.com" "pw"
      (mkAccount 1 "free" ⟨2025, 4⟩)
      (by decide) (by decide) (by decide) (by decide) (by decide)⟩

/-- C3: when the collaborator call fails (transport error or non-2xx,
both surfacing as a thrown message), the search returns UpstreamError
(HTTP 500, "Search failed: ...") and the store — hence the counter — is
untouched; on any completed round trip yielding a result set, even a
missing/empty one, the counter is incremented and persisted. -/
theorem search_upstream_failure_no_charge (store : Store) (email : String)
    (acct : Account) (c : Criteria) (es : Bool) (msg : String)
    (res : Option (List Project))
    (hemail : email ≠ "") (hacct : store email = some acct)
    (hq : acct.monthly_searches <
      (if acct.subscription_status ≠ "active" then 5 else 15)) :
    ((handleSearch store email (some c) (.failure msg) es).response.status = 500
      ∧ (handleSearch store email (some c) (.failure msg) es).response.error
          = some ("Search failed: " ++ msg)
      ∧ (handleSearch store email (some c) (.failure msg) es).store = store)
    ∧ (handleSearch store email (some c) (.success res) es).store email =
        some { acct with monthly_searches := acct.monthly_searches + 1 } := by
  by_cases hact : acct.subscription_status = "active" <;> cases es <;>
    simp_all [handleSearch, jsonError, Store.update] <;>
      simp [Nat.not_le.mpr hq, Store.update]

/-- C3 witness: a failed upstream call against the demo account yields
500 with an unchanged store; a successful empty round trip increments
the stored counter. -/
theorem search_upstream_failure_no_charge_witness :
    ((handleSearch (mkStore (mkAccount 2 "free" ⟨2025, 4⟩)) "a@x.com"
        (some demoCriteria) (.failure "NIH API error: 503") true).response.status = 500
      ∧ (handleSearch (mkStore (mkAccount 2 "free" ⟨2025, 4⟩)) "a@x.com"
          (some demoCriteria) (.failure "NIH API error: 503") true).response.error
          = some ("Search failed: " ++ "NIH API error: 503")
      ∧ (handleSearch (mkStore (mkAccount 2 "free" ⟨2025, 4⟩)) "a@x.com"
          (some demoCriteria) (.failure "NIH API error: 503") true).store
          = mkStore (mkAccount 2 "free" ⟨2025, 4⟩))
    ∧ (handleSearch (mkStore (mkAccount 2 "free" ⟨2025, 4⟩)) "a@x.com"
        (some demoCriteria) (.success (some [])) true).store "a@x.com" =
        some { mkAccount 2 "free" ⟨2025, 4⟩ with
               monthly_searches := (mkAccount 2 "free" ⟨2025, 4⟩).monthly_searches + 1 } :=
  search_upstream_failure_no_charge (mkStore (mkAccount 2 "free" ⟨2025, 4⟩))
    "a@x.com" (mkAccount 2 "free" ⟨2025, 4⟩) demoCriteria true
    "NIH API error: 503" (some []) (by decide) (by decide) (by decide)

/-- C5: on a successful collaborator call the search increments the
counter by 1 and persists the account before invoking the Notifier
(the `kvPut` of the updated account precedes the `notify` in the effect
trace), and the outcome — stored state, 200 status, success body — is
the same whether the Notifier succeeds or fails; a Notifier failure
only attaches the warning. -/
theorem search_success_persists_then_notifies (store : Store) (email : String)
    (acct : Account) (c : Criteria) (res : Option (List Project)) (es : Bool)
    (hemail : email ≠ "") (hacct : store email = some acct)
    (hq : acct.monthly_searches <
      (if acct.subscription_status ≠ "active" then 5 else 15)) :
    (handleSearch store email (some c) (.success res) es).store email =
      some { acct with monthly_searches := acct.monthly_searches + 1 }
    ∧ (handleSearch store email (some c) (.success res) es).events =
        [Event.nihCall
          { criteria := normalizeCriteria c, sort_field := "project_start_date",
            sort_order := "desc", offset := 0,
            limit := if acct.subscription_status ≠ "active" then 3 else 10 },
         Event.kvPut email { acct with monthly_searches := acct.monthly_searches + 1 },
         Event.notify email (res.getD []) (normalizeCriteria c)]
    ∧ (handleSearch store email (some c) (.success res) es).response.status = 200
    ∧ (handleSearch store email (some c) (.success res) es).response.success = true
    ∧ (es = false →
        (handleSearch store email (some c) (.success res) es).response.warning
          = some "Email delivery failed") := by
  by_cases hact : acct.subscription_status = "active" <;> cases es <;>
    simp_all [handleSearch, Store.update] <;>
      simp [Nat.not_le.mpr hq, Store.update]

/-- C5 witness: a successful two-result search with a failing Notifier
still persists counter 2, emits put-then-notify, and returns 200 with
the warning. -/
theorem search_success_persists_then_notifies_witness :
    (handleSearch (mkStore (mkAccount 1 "free" ⟨2025, 4⟩)) "a@x.com"
        (some demoCriteria) (.success (some [⟨"p1"⟩, ⟨"p2"⟩])) false).store "a@x.com" =
      some { mkAccount 1 "free" ⟨2025, 4⟩ with
             monthly_searches := (mkAccount 1 "free" ⟨2025, 4⟩).monthly_searches + 1 }
    ∧ (handleSearch (mkStore (mkAccount 1 "free" ⟨2025, 4⟩)) "a@x.com"
        (some demoCriteria) (.success (some [⟨"p1"⟩, ⟨"p2"⟩])) false).events =
        [Event.nihCall
          { criteria := normalizeCriteria demoCriteria,
            sort_field := "project_start_date",
            sort_order := "desc", offset := 0,
            limit := if (mkAccount 1 "free" ⟨2025, 4⟩).subscription_status ≠ "active"
                     then 3 else 10 },
         Event.kvPut "a@x.com"
           { mkAccount 1 "free" ⟨2025, 4⟩ with
             monthly_searches := (mkAccount 1 "free" ⟨2025, 4⟩).monthly_searches + 1 },
         Event.notify "a@x.com" ((some [⟨"p1"⟩, ⟨"p2"⟩] : Option (List Project)).getD [])
           (normalizeCriteria demoCriteria)]
    ∧ (handleSearch (mkStore (mkAccount 1 "free" ⟨2025, 4⟩)) "a@x.com"
        (some demoCriteria) (.success (some [⟨"p1"⟩, ⟨"p2"⟩])) false).response.status = 200
    ∧ (handleSearch (mkStore (mkAccount 1 "free" ⟨2025, 4⟩)) "a@x.com"
        (some demoCriteria) (.success (some [⟨"p1"⟩, ⟨"p2"⟩])) false).response.success = true
    ∧ (false = false →
        (handleSearch (mkStore (mkAccount 1 "free" ⟨2025, 4⟩)) "a@x.com"
          (some demoCriteria) (.success (some [⟨"p1"⟩, ⟨"p2"⟩])) false).response.warning
          = some "Email delivery failed") :=
  search_success_persists_then_notifies (mkStore (mkAccount 1 "free" ⟨2025, 4⟩))
    "a@x.com" (mkAccount 1 "free" ⟨2025, 4⟩) demoCriteria
    (some [⟨"p1"⟩, ⟨"p2"⟩]) false (by decide) (by decide) (by decide)

/-- C9: when the criteria carry a truthy free-text field, the request
recorded for the external collaborator replaces it by the compound
clause (operator "and", fields "projecttitle,terms,abstracttext",
original text preserved), removes the original field, keeps the other
criteria fields, and always uses limit = max_results_per_search
(3 FREE / 10 PRO), offset 0, and sort `project_start_date` descending —
the gated handler accepts no caller-supplied sort or offset at all. -/
theorem search_payload_fixed_shape (store : Store) (email : String)
    (acct : Account) (c : Criteria) (nih : NihResult) (es : Bool) (t : String)
    (hemail : email ≠ "") (hacct : store email = some acct)
    (hq : acct.monthly_searches <
      (if acct.subscription_status ≠ "active" then 5 else 15))
    (ht : c.text_search = some t) (ht2 : t ≠ "") :
    (handleSearch store email (some c) nih es).events.head? =
      some (Event.nihCall
        { criteria :=
            { c with
              text_search := none,
              advanced_text_search :=
                some { operator := "and",
                       search_field := "projecttitle,terms,abstracttext",
                       search_text := t } },
          sort_field := "project_start_date", sort_order := "desc",
          offset := 0,
          limit := if acct.subscription_status ≠ "active" then 3 else 10 }) := by
  have hnorm : normalizeCriteria c =
      { c with
        text_search := none,
        advanced_text_search :=
          some { operator := "and",
                 search_field := "projecttitle,terms,abstracttext",
                 search_text := t } } := by
    simp [normalizeCriteria, ht, ht2]
  by_cases hact : acct.subscription_status = "active" <;>
    cases nih <;> cases es <;>
      simp_all [handleSearch, hnorm] <;>
        simp [Nat.not_le.mpr hq]

/-- C9 witness: the demo criteria ("cancer" free text plus a fiscal-year
field) produce the fixed-shape payload against the FREE demo account. -/
theorem search_payload_fixed_shape_witness :
    (handleSearch (mkStore (mkAccount 0 "free" ⟨2025, 4⟩)) "a@x.com"
        (some demoCriteria) (.success (some [])) true).events.head? =
      some (Event.nihCall
        { criteria :=
            { demoCriteria with
              text_search := none,
              advanced_text_search :=
                some { operator := "and",
                       search_field := "projecttitle,terms,abstracttext",
                       search_text := "cancer" } },
          sort_field := "project_start_date", sort_order := "desc",
          offset := 0,
          limit := if (mkAccount 0 "free" ⟨2025, 4⟩).subscription_status ≠ "active"
                   then 3 else 10 }) :=
  search_payload_fixed_shape (mkStore (mkAccount 0 "free" ⟨2025, 4⟩)) "a@x.com"
    (mkAccount 0 "free" ⟨2025, 4⟩) demoCriteria (.success (some [])) true
    "cancer" (by decide) (by decide) (by decide) (by decide) (by decide)

/-- C4: applying the checkout-completed webhook update twice with
identical input (same session object, same clock reading) leaves the
store in the same state as applying it once: the second application
finds the already-upgraded account and overwrites it with the same
tier, external ids, and upgrade timestamp; absent-account and
missing-email events are dropped without a write both times. -/
theorem checkout_completed_idempotent (store : Store) (now : Date)
    (session : StripeObject) :
    handleCheckoutCompleted (handleCheckoutCompleted store now session) now
        session
      = handleCheckoutCompleted store now session := by
  unfold handleCheckoutCompleted
  cases hj : jsOr session.customer_email session.metadata_user_email with
  | none => rfl
  | some e =>
    cases hs : store e with
    | none => simp [hs]
    | some u =>
      funext k'
      by_cases hk : k' = e <;> simp [hs, Store.update, hk]

/-- Shape lemma: any user object in a register response is a
rest-destructured account. -/
theorem handleRegister_user_shape (hash : String → String) (store : Store)
    (now : Date) (email password : String) (u : List (String × String))
    (hu : (handleRegister hash store now email password).1.user = some u) :
    ∃ a, u = safeUserFields a := by
  simp only [handleRegister] at hu
  repeat' split at hu
  all_goals first
    | exact Option.noConfusion hu
    | exact ⟨_, (Option.some_inj.mp hu).symm⟩

/-- Shape lemma: any user object in a login response is a
rest-destructured account. -/
theorem handleLogin_user_shape (hash : String → String) (store : Store)
    (now : Date) (email password : String) (u : List (String × String))
    (hu : (handleLogin hash store now email password).1.user = some u) :
    ∃ a, u = safeUserFields a := by
  simp only [handleLogin] at hu
  repeat' split at hu
  all_goals first
    | exact Option.noConfusion hu
    | exact ⟨_, (Option.some_inj.mp hu).symm⟩

/-- Shape lemma: any user object in a search response is a
rest-destructured account. -/
theorem handleSearch_user_shape (store : Store) (email : String)
    (criteria : Option Criteria) (nih : NihResult) (es : Bool)
    (u : List (String × String))
    (hu : (handleSearch store email criteria nih es).response.user = some u) :
    ∃ a, u = safeUserFields a := by
  simp only [handleSearch] at hu
  repeat' split at hu
  all_goals first
    | exact Option.noConfusion hu
    | exact ⟨_, (Option.some_inj.mp hu).symm⟩

/-- Shape lemma: any user object in a reset response is a
rest-destructured account. -/
theorem handleReset_user_shape (store : Store) (now : Date) (email : String)
    (u : List (String × String))
    (hu : (handleReset store now email).1.user = some u) :
    ∃ a, u = safeUserFields a := by
  simp only [handleReset] at hu
  repeat' split at hu
  all_goals first
    | exact Option.noConfusion hu
    | exact ⟨_, (Option.some_inj.mp hu).symm⟩

/-- C6: no response body of register, login, search, or reset ever
includes a `password_hash` field: every user object any of them emits
is the rest-destructuring of an account with that key removed. -/
theorem responses_never_include_password_hash (hash : String → String)
    (store : Store) (now : Date) (email password : String)
    (criteria : Option Criteria) (nih : NihResult) (es : Bool)
    (u : List (String × String)) :
    ((handleRegister hash store now email password).1.user = some u →
      "password_hash" ∉ u.map Prod.fst)
    ∧ ((handleLogin hash store now email password).1.user = some u →
      "password_hash" ∉ u.map Prod.fst)
    ∧ ((handleSearch store email criteria nih es).response.user = some u →
      "password_hash" ∉ u.map Prod.fst)
    ∧ ((handleReset store now email).1.user = some u →
      "password_hash" ∉ u.map Prod.fst) := by
  refine ⟨fun hu => ?_, fun hu => ?_, fun hu => ?_, fun hu => ?_⟩
  · obtain ⟨a, ha⟩ := handleRegister_user_shape hash store now email password u hu
    exact ha ▸ safeUserFields_no_hash a
  · obtain ⟨a, ha⟩ := handleLogin_user_shape hash store now email password u hu
    exact ha ▸ safeUserFields_no_hash a
  · obtain ⟨a, ha⟩ := handleSearch_user_shape store email criteria nih es u hu
    exact ha ▸ safeUserFields_no_hash a
  · obtain ⟨a, ha⟩ := handleReset_user_shape store now email u hu
    exact ha ▸ safeUserFields_no_hash a

/-- C6 witness: the concrete user object in a fresh registration's
response has no `password_hash` key. -/
theorem responses_never_include_password_hash_witness :
    "password_hash" ∉
      (safeUserFields (mkAccount 0 "free" ⟨2025, 3⟩)).map Prod.fst :=
  (responses_never_include_password_hash demoHash (fun _ => none) ⟨2025, 3⟩
    "a@x.com" "pw" (some demoCriteria) (.success (some [])) true
    (safeUserFields (mkAccount 0 "free" ⟨2025, 3⟩))).1 (by decide)

/-- C10: the webhook's behaviour is identical for any two (or no)
`stripe-signature` headers — the header is read but never verified —
and any parsed `checkout.session.completed` body naming an existing
account's email upgrades that account to PRO (`subscription_status =
"active"`, Stripe ids recorded) while the endpoint answers 200
`received: true`. -/
theorem webhook_ignores_signature (store : Store) (now : Date)
    (method : String) (sig1 sig2 : Option String)
    (body : Option WebhookPayload) (obj : StripeObject) (e : String)
    (acct : Account) :
    (webhookOnRequest store now method sig1 body =
      webhookOnRequest store now method sig2 body)
    ∧ (body = some ⟨"checkout.session.completed", obj⟩ →
       jsOr obj.customer_email obj.metadata_user_email = some e →
       store e = some acct →
       ((webhookOnRequest store now "POST" sig1 body).2 e =
          some { acct with
                 subscription_status := "active",
                 stripe_customer_id := obj.customer,
                 subscription_id := obj.subscription,
                 upgraded_at := some now }
        ∧ (webhookOnRequest store now "POST" sig1 body).1 =
            { status := 200, received := true, error := none })) := by
  refine ⟨rfl, fun hb hj hs => ?_⟩
  subst hb
  simp [webhookOnRequest, handleCheckoutCompleted, hj, hs, Store.update]

/-- C10 witness: a concrete checkout-completed body upgrades the demo
FREE account identically with no header and with a well-formed one. -/
theorem webhook_ignores_signature_witness :
    (webhookOnRequest (mkStore (mkAccount 3 "free" ⟨2025, 4⟩)) ⟨2025, 5⟩
        "POST" none
        (some ⟨"checkout.session.completed",
               ⟨some "a@x.com", none, some "cus_1", some "sub_1", none⟩⟩) =
      webhookOnRequest (mkStore (mkAccount 3 "free" ⟨2025, 4⟩)) ⟨2025, 5⟩
        "POST" (some "t=1,v1=abc")
        (some ⟨"checkout.session.completed",
               ⟨some "a@x.com", none, some "cus_1", some "sub_1", none⟩⟩))
    ∧ ((webhookOnRequest (mkStore (mkAccount 3 "free" ⟨2025, 4⟩)) ⟨2025, 5⟩
        "POST" none
        (some ⟨"checkout.session.completed",
               ⟨some "a@x.com", none, some "cus_1", some "sub_1", none⟩⟩)).2
        "a@x.com" =
          some { mkAccount 3 "free" ⟨2025, 4⟩ with
                 subscription_status := "active",
                 stripe_customer_id := some "cus_1",
                 subscription_id := some "sub_1",
                 upgraded_at := some ⟨2025, 5⟩ }
      ∧ (webhookOnRequest (mkStore (mkAccount 3 "free" ⟨2025, 4⟩)) ⟨2025, 5⟩
          "POST" none
          (some ⟨"checkout.session.completed",
                 ⟨some "a@x.com", none, some "cus_1", some "sub_1", none⟩⟩)).1 =
            { status := 200, received := true, error := none }) :=
  ⟨(webhook_ignores_signature (mkStore (mkAccount 3 "free" ⟨2025, 4⟩)) ⟨2025, 5⟩
      "POST" none (some "t=1,v1=abc")
      (some ⟨"checkout.session.completed",
             ⟨some "a@x.com", none, some "cus_1", some "sub_1", none⟩⟩)
      ⟨some "a@x.com", none, some "cus_1", some "sub_1", none⟩ "a@x.com"
      (mkAccount 3 "free" ⟨2025, 4⟩)).1,
   (webhook_ignores_signature (mkStore (mkAccount 3 "free" ⟨2025, 4⟩)) ⟨2025, 5⟩
      "POST" none (some "t=1,v1=abc")
      (some ⟨"checkout.session.completed",
             ⟨some "a@x.com", none, some "cus_1", some "sub_1", none⟩⟩)
      ⟨some "a@x.com", none, some "cus_1", some "sub_1", none⟩ "a@x.com"
      (mkAccount 3 "free" ⟨2025, 4⟩)).2 rfl (by decide) (by decide)⟩

end EmailIntegration
